import Mathlib

/-!
Shallow embedding of `src/WalletPay/AsyncWalletPayAPI.py` (WalletPay async
client). Parsed JSON values are modelled by an inductive `JSON`; Python
dicts (insertion-ordered association of string keys to values) by
`List (String × JSON)`. The HTTP layer is modelled by a function
`net : Request → HttpResponse` supplied by the environment; each operation
returns the list of requests it actually performed together with either a
result or a raised exception.
-/

set_option autoImplicit false

namespace WalletPay

/-- A parsed JSON value. Python floats are represented by rationals: every
claim under verification only moves numeric literals around verbatim, never
performs float arithmetic. -/
inductive JSON where
  | null
  | bool (b : Bool)
  | num (q : Rat)
  | str (s : String)
  | arr (elems : List JSON)
  | obj (fields : List (String × JSON))

/-- A Python dict with string keys, as returned by `response.json()`
(`_make_request` is annotated `-> Dict`). -/
abbrev Dict := List (String × JSON)

/-- Python `d[k]`-style lookup on a dict: first field with the given key. -/
def lookupField : Dict → String → Option JSON
  | [], _ => none
  | (k, v) :: rest, key => if k == key then some v else lookupField rest key

/-- Python `d.get(k, default)` on a dict. -/
def getD (d : Dict) (key : String) (dflt : JSON) : JSON :=
  (lookupField d key).getD dflt

/-- Exceptions that the code can raise. The WalletPay hierarchy
(`WalletPayException` and its four operation-specific subtypes) lives in
`WalletPay.types`, which is not part of the sources under verification.
Modelled from the spec: a base failure type carrying a message, with one
subtype per operation carrying the full raw response payload plus a
message. `TypeError`, `ValueError` and `AttributeError` are the Python
builtin exceptions reachable from the code under verification. -/
inductive PyErr where
  | WalletPayException (message : JSON)
  | CreateOrderException (payload : Dict) (message : String)
  | GetOrderPreviewException (payload : Dict) (message : String)
  | GetOrderListException (payload : Dict) (message : String)
  | GetOrderAmountException (payload : Dict) (message : String)
  | TypeError (message : String)
  | ValueError (message : String)
  | AttributeError (message : String)

/-- Whether an exception belongs to the WalletPay failure hierarchy
(base type or one of the four operation-specific subtypes), as opposed to
a Python builtin error. -/
def PyErr.isWalletPayFailure : PyErr → Bool
  | .WalletPayException _ => true
  | .CreateOrderException _ _ => true
  | .GetOrderPreviewException _ _ => true
  | .GetOrderListException _ _ => true
  | .GetOrderAmountException _ _ => true
  | .TypeError _ => false
  | .ValueError _ => false
  | .AttributeError _ => false

/-- Modelled from the spec: `OrderPreview` from `WalletPay.types` is not
under the sources; it is a transient DTO built verbatim from the value
passed to its constructor (`response_data.get("data")`, possibly `None`). -/
structure OrderPreview where
  payload : Option JSON

/-- Modelled from the spec: `OrderReconciliationItem` from
`WalletPay.types` is not under the sources; a DTO built verbatim from one
element of the response array. -/
structure OrderReconciliationItem where
  payload : JSON

/-- An outgoing HTTP request as assembled by `_make_request`:
method, full URL, headers, and the JSON body (`json=data`, POST only). -/
structure Request where
  method : String
  url : String
  headers : List (String × String)
  body : Option Dict

/-- What the server answers: HTTP status code and parsed JSON body. -/
structure HttpResponse where
  status : Nat
  body : Dict

/-- The network environment: what response each performed request gets. -/
abbrev Net := Request → HttpResponse

/-- A network that answers every request with the same status and body. -/
def constNet (status : Nat) (body : Dict) : Net := fun _ => ⟨status, body⟩

def BASE_URL : String := "https://pay.wallet.tg/wpay/store-api/v1/"

/-- The three fixed headers attached to every request. -/
def request_headers (api_key : String) : List (String × String) :=
  [("Wpay-Store-Api-Key", api_key),
   ("Content-Type", "application/json"),
   ("Accept", "application/json")]

/-- Message used for a non-200 response:
`response_data.get("message", "Unknown error")`. -/
def errMessage (body : Dict) : JSON :=
  getD body "message" (.str "Unknown error")

/-- Embedding of `AsyncWalletPayAPI._make_request`. Returns the list of
requests performed over the network together with the outcome. An invalid
method raises before any request is performed; a performed request with a
non-200 status raises `WalletPayException` with the body's message. -/
def make_request (api_key method endpoint : String) (data : Option Dict)
    (net : Net) : List Request × Except PyErr Dict :=
  let headers := request_headers api_key
  let url := BASE_URL ++ endpoint
  if method == "POST" then
    let req : Request := ⟨"POST", url, headers, data⟩
    let resp := net req
    ([req],
      if resp.status ≠ 200 then .error (.WalletPayException (errMessage resp.body))
      else .ok resp.body)
  else if method == "GET" then
    let req : Request := ⟨"GET", url, headers, none⟩
    let resp := net req
    ([req],
      if resp.status ≠ 200 then .error (.WalletPayException (errMessage resp.body))
      else .ok resp.body)
  else
    ([], .error (.WalletPayException (.str "Invalid HTTP method")))

/-- Python truthiness of an `Optional[str]` argument: `None` and the empty
string are falsy. -/
def truthyStr : Option String → Bool
  | none => false
  | some s => !s.isEmpty

/-- Python truthiness of an `Optional[Dict]` argument: `None` and the empty
dict are falsy. -/
def truthyDict : Option Dict → Bool
  | none => false
  | some d => !d.isEmpty

/-- The envelope status check shared by all four operations:
`response_data.get("status") == "SUCCESS"` (Python `==` between the looked
up value and the string literal; an absent key compares `None` to a string,
which is false, as is any non-equal or non-string value). -/
def isSuccess (body : Dict) : Bool :=
  match lookupField body "status" with
  | some (.str s) => s == "SUCCESS"
  | _ => false

/-- The JSON body assembled by `create_order`: the five mandatory fields in
source order, then each optional field appended when (and only when) its
argument is truthy. -/
def create_order_body (amount : Rat) (currency_code description external_id : String)
    (timeout_seconds : Int) (customer_telegram_user_id : String)
    (return_url fail_return_url : Option String) (custom_data : Option Dict) : Dict :=
  let data : Dict :=
    [("amount", .obj [("currencyCode", .str currency_code), ("amount", .num amount)]),
     ("description", .str description),
     ("externalId", .str external_id),
     ("timeoutSeconds", .num timeout_seconds),
     ("customerTelegramUserId", .str customer_telegram_user_id)]
  let data := if truthyStr return_url then data ++ [("returnUrl", .str (return_url.getD ""))] else data
  let data := if truthyStr fail_return_url then data ++ [("failReturnUrl", .str (fail_return_url.getD ""))] else data
  if truthyDict custom_data then data ++ [("customData", .obj (custom_data.getD []))] else data

/-- Embedding of `AsyncWalletPayAPI.create_order`. -/
def create_order (api_key : String) (amount : Rat)
    (currency_code description external_id : String) (timeout_seconds : Int)
    (customer_telegram_user_id : String)
    (return_url fail_return_url : Option String) (custom_data : Option Dict)
    (net : Net) : List Request × Except PyErr OrderPreview :=
  let data := create_order_body amount currency_code description external_id
    timeout_seconds customer_telegram_user_id return_url fail_return_url custom_data
  let (reqs, r) := make_request api_key "POST" "order" (some data) net
  (reqs, r.bind fun response_data =>
    if isSuccess response_data then
      .ok ⟨lookupField response_data "data"⟩
    else
      .error (.CreateOrderException response_data "Failed to create order"))

/-- Embedding of `AsyncWalletPayAPI.get_order_preview`. -/
def get_order_preview (api_key order_id : String) (net : Net) :
    List Request × Except PyErr OrderPreview :=
  let (reqs, r) := make_request api_key "GET" ("order/preview?id=" ++ order_id) none net
  (reqs, r.bind fun response_data =>
    if isSuccess response_data then
      .ok ⟨lookupField response_data "data"⟩
    else
      .error (.GetOrderPreviewException response_data "Failed to retrieve order preview"))

/-- Python attribute access `v.get(k, default)` on an arbitrary value `v`:
only dicts have `.get`; any other value raises `AttributeError`. -/
def pyGetD (v : JSON) (key : String) (dflt : JSON) : Except PyErr JSON :=
  match v with
  | .obj fields => .ok (getD fields key dflt)
  | _ => .error (.AttributeError "object has no attribute get")

/-- Python attribute access `v.get(k)` (no default) on an arbitrary value. -/
def pyGet (v : JSON) (key : String) : Except PyErr (Option JSON) :=
  match v with
  | .obj fields => .ok (lookupField fields key)
  | _ => .error (.AttributeError "object has no attribute get")

/-- Embedding of `AsyncWalletPayAPI.get_order_list`. On success it reads
`response_data.get("data", {}).get("items", [])` and maps each element to
an `OrderReconciliationItem`. Iterating a non-list value is modelled as a
`TypeError` (no claim exercises that branch). -/
def get_order_list (api_key : String) (offset count : Int) (net : Net) :
    List Request × Except PyErr (List OrderReconciliationItem) :=
  let endpoint := "reconciliation/order-list?offset=" ++ toString offset
    ++ "&count=" ++ toString count
  let (reqs, r) := make_request api_key "GET" endpoint none net
  (reqs, r.bind fun response_data =>
    if isSuccess response_data then
      (pyGetD (getD response_data "data" (.obj [])) "items" (.arr [])).bind fun items =>
        match items with
        | .arr xs => .ok (xs.map OrderReconciliationItem.mk)
        | _ => .error (.TypeError "object is not iterable")
    else
      .error (.GetOrderListException response_data "Failed to retrieve order list"))

/-- Decimal digits to a natural number; fails on the empty list or any
non-digit character. -/
def digitsToNat : List Char → Option Nat
  | [] => none
  | cs => cs.foldl
      (fun acc c => acc.bind fun n =>
        if c.isDigit then some (10 * n + (c.toNat - 48)) else none)
      (some 0)

/-- Python `int(s)` on a string: surrounding whitespace is stripped, an
optional sign precedes the decimal digits, anything else fails.
(Underscore digit grouping, which Python also accepts, is not modelled;
no claim exercises it.) -/
def pyStrToInt (s : String) : Option Int :=
  let cs := ((s.data.dropWhile Char.isWhitespace).reverse.dropWhile
    Char.isWhitespace).reverse
  match cs with
  | '-' :: rest => (digitsToNat rest).map fun n => -(n : Int)
  | '+' :: rest => (digitsToNat rest).map fun n => (n : Int)
  | rest => (digitsToNat rest).map fun n => (n : Int)

/-- Python `int(x)` applied to the (possibly missing) looked-up value:
`int(None)` is a `TypeError`; a string is parsed as an integer (surrounding
whitespace allowed) or raises `ValueError`; a number truncates toward zero;
a bool maps to 0 or 1; containers raise `TypeError`. -/
def pyInt : Option JSON → Except PyErr Int
  | none =>
      .error (.TypeError "int argument must be a string, a bytes-like object or a real number, not NoneType")
  | some .null =>
      .error (.TypeError "int argument must be a string, a bytes-like object or a real number, not NoneType")
  | some (.bool b) => .ok (if b then 1 else 0)
  | some (.num q) => .ok (q.num.tdiv q.den)
  | some (.str s) =>
      match pyStrToInt s with
      | some n => .ok n
      | none => .error (.ValueError "invalid literal for int with base 10")
  | some (.arr _) => .error (.TypeError "int argument must be a string, a bytes-like object or a real number, not list")
  | some (.obj _) => .error (.TypeError "int argument must be a string, a bytes-like object or a real number, not dict")

/-- Embedding of `AsyncWalletPayAPI.get_order_amount`. On success it
returns `int(response_data.get("data", {}).get("totalAmount"))`. -/
def get_order_amount (api_key : String) (net : Net) :
    List Request × Except PyErr Int :=
  let (reqs, r) := make_request api_key "GET" "reconciliation/order-amount" none net
  (reqs, r.bind fun response_data =>
    if isSuccess response_data then
      (pyGet (getD response_data "data" (.obj [])) "totalAmount").bind pyInt
    else
      .error (.GetOrderAmountException response_data "Failed to retrieve order amount"))

/-! ## Helper lemmas -/

theorem isSuccess_eq_false_of_ne {b : Dict}
    (h : lookupField b "status" ≠ some (JSON.str "SUCCESS")) :
    isSuccess b = false := by
  unfold isSuccess
  cases hv : lookupField b "status" with
  | none => rfl
  | some v =>
    cases v with
    | str s =>
      have hs : s ≠ "SUCCESS" := by
        intro heq; exact h (by rw [hv, heq])
      simp [hs]
    | null => rfl
    | bool _ => rfl
    | num _ => rfl
    | arr _ => rfl
    | obj _ => rfl

theorem isSuccess_eq_true {b : Dict}
    (h : lookupField b "status" = some (JSON.str "SUCCESS")) :
    isSuccess b = true := by
  unfold isSuccess
  rw [h]
  rfl

/-- All four operations, given a 200 response whose envelope fails the
status check, raise their operation-specific exception carrying the whole
envelope. Shared backbone for the failure-path claims. -/
theorem ops_fail_aux (api_key : String) (b : Dict) (hs : isSuccess b = false)
    (amount : Rat) (cc de ei : String) (ts : Int) (cu : String)
    (ru fr : Option String) (cd : Option Dict)
    (oid : String) (off cnt : Int) :
    (create_order api_key amount cc de ei ts cu ru fr cd (constNet 200 b)).2
        = .error (.CreateOrderException b "Failed to create order")
  ∧ (get_order_preview api_key oid (constNet 200 b)).2
        = .error (.GetOrderPreviewException b "Failed to retrieve order preview")
  ∧ (get_order_list api_key off cnt (constNet 200 b)).2
        = .error (.GetOrderListException b "Failed to retrieve order list")
  ∧ (get_order_amount api_key (constNet 200 b)).2
        = .error (.GetOrderAmountException b "Failed to retrieve order amount") := by
  refine ⟨?_, ?_, ?_, ?_⟩ <;>
    simp [create_order, get_order_preview, get_order_list, get_order_amount,
      make_request, constNet, hs, Except.bind]

/-! ## Claim theorems -/

/-- C1: for each of the four public operations, if the HTTP call returns
status 200 but the envelope's status field is not the literal string
"SUCCESS", the operation raises its operation-specific exception
(CreateOrderException, GetOrderPreviewException, GetOrderListException,
GetOrderAmountException respectively), and the payload stored in that
exception equals the complete raw response envelope. -/
theorem ops_raise_specific_exception_with_payload
    (api_key : String) (b : Dict)
    (hs : lookupField b "status" ≠ some (JSON.str "SUCCESS"))
    (amount : Rat) (cc de ei : String) (ts : Int) (cu : String)
    (ru fr : Option String) (cd : Option Dict)
    (oid : String) (off cnt : Int) :
    (create_order api_key amount cc de ei ts cu ru fr cd (constNet 200 b)).2
        = .error (.CreateOrderException b "Failed to create order")
  ∧ (get_order_preview api_key oid (constNet 200 b)).2
        = .error (.GetOrderPreviewException b "Failed to retrieve order preview")
  ∧ (get_order_list api_key off cnt (constNet 200 b)).2
        = .error (.GetOrderListException b "Failed to retrieve order list")
  ∧ (get_order_amount api_key (constNet 200 b)).2
        = .error (.GetOrderAmountException b "Failed to retrieve order amount") :=
  ops_fail_aux api_key b (isSuccess_eq_false_of_ne hs)
    amount cc de ei ts cu ru fr cd oid off cnt

/-- Witness for C1 at the envelope with status "FAILED". -/
theorem ops_raise_specific_exception_with_payload_witness :
    (get_order_amount "key" (constNet 200 [("status", .str "FAILED")])).2
      = .error (.GetOrderAmountException [("status", .str "FAILED")]
          "Failed to retrieve order amount") :=
  (ops_raise_specific_exception_with_payload "key" [("status", .str "FAILED")]
    (by intro h; simp [lookupField] at h) 1 "USD" "d" "e" 60 "u" none none none
    "o" 0 10).2.2.2

/-- C10: the success check is exact, case-sensitive string equality with
"SUCCESS": an envelope whose status field is absent entirely, or present
with any other value (including "success" or non-string values), makes the
operation raise its operation-specific exception rather than crash or
succeed. -/
theorem ops_status_check_exact
    (api_key : String) (b : Dict)
    (hs : lookupField b "status" = none
        ∨ ∃ v, lookupField b "status" = some v ∧ v ≠ JSON.str "SUCCESS")
    (amount : Rat) (cc de ei : String) (ts : Int) (cu : String)
    (ru fr : Option String) (cd : Option Dict)
    (oid : String) (off cnt : Int) :
    (create_order api_key amount cc de ei ts cu ru fr cd (constNet 200 b)).2
        = .error (.CreateOrderException b "Failed to create order")
  ∧ (get_order_preview api_key oid (constNet 200 b)).2
        = .error (.GetOrderPreviewException b "Failed to retrieve order preview")
  ∧ (get_order_list api_key off cnt (constNet 200 b)).2
        = .error (.GetOrderListException b "Failed to retrieve order list")
  ∧ (get_order_amount api_key (constNet 200 b)).2
        = .error (.GetOrderAmountException b "Failed to retrieve order amount") := by
  have hne : lookupField b "status" ≠ some (JSON.str "SUCCESS") := by
    rcases hs with h | ⟨v, hv, hne⟩
    · rw [h]; intro h'; exact Option.noConfusion h'
    · rw [hv]; intro h'; exact hne (Option.some.inj h')
  exact ops_fail_aux api_key b (isSuccess_eq_false_of_ne hne)
    amount cc de ei ts cu ru fr cd oid off cnt

/-- Witness for C10 at the lowercase envelope status "success". -/
theorem ops_status_check_exact_witness :
    (create_order "key" 1 "USD" "d" "e" 60 "u" none none none
        (constNet 200 [("status", .str "success")])).2
      = .error (.CreateOrderException [("status", .str "success")]
          "Failed to create order") :=
  (ops_status_check_exact "key" [("status", .str "success")]
    (Or.inr ⟨.str "success", rfl, by intro h; simp at h⟩)
    1 "USD" "d" "e" 60 "u" none none none "o" 0 10).1

/-- C2: for every request the executor performs, if the HTTP response
status is not 200 the executor raises WalletPayException whose message is
the parsed body's "message" field when present and the literal
"Unknown error" when absent. -/
theorem make_request_non_200_message
    (api_key method endpoint : String) (data : Option Dict) (net : Net)
    (req : Request)
    (hreq : req ∈ (make_request api_key method endpoint data net).1)
    (hstatus : (net req).status ≠ 200) :
    (make_request api_key method endpoint data net).2
      = .error (.WalletPayException
          (getD (net req).body "message" (.str "Unknown error"))) := by
  unfold make_request at hreq ⊢
  by_cases hp : method == "POST"
  · simp only [hp, if_true, List.mem_singleton] at hreq
    subst hreq
    simp [hp, errMessage, hstatus]
  · by_cases hg : method == "GET"
    · simp [hp, hg] at hreq
      subst hreq
      simp [hp, hg, errMessage, hstatus]
    · simp [hp, hg] at hreq

/-- Witness for C2: a 404 response whose body carries a message. -/
theorem make_request_non_200_message_witness :
    (make_request "key" "GET" "order/preview?id=x" none
        (constNet 404 [("message", .str "Order not found")])).2
      = .error (.WalletPayException (.str "Order not found")) :=
  make_request_non_200_message "key" "GET" "order/preview?id=x" none
    (constNet 404 [("message", .str "Order not found")])
    ⟨"GET", BASE_URL ++ "order/preview?id=x", request_headers "key", none⟩
    (by simp [make_request]) (by simp [constNet])

/-- C7: an HTTP method other than "POST" or "GET" makes the executor raise
WalletPayException with message "Invalid HTTP method" immediately, with no
request performed over the network (the request trace is empty). -/
theorem make_request_invalid_method
    (api_key method endpoint : String) (data : Option Dict) (net : Net)
    (hp : method ≠ "POST") (hg : method ≠ "GET") :
    make_request api_key method endpoint data net
      = ([], .error (.WalletPayException (.str "Invalid HTTP method"))) := by
  simp [make_request, hp, hg]

/-- Witness for C7 at method "PUT". -/
theorem make_request_invalid_method_witness :
    make_request "key" "PUT" "order" none (constNet 200 [])
      = ([], .error (.WalletPayException (.str "Invalid HTTP method"))) :=
  make_request_invalid_method "key" "PUT" "order" none (constNet 200 [])
    (by decide) (by decide)

/-- C8: every request performed by the executor has URL equal to the fixed
base literal concatenated with the endpoint, and carries exactly the three
fixed headers: the API-key header, Content-Type and Accept. -/
theorem make_request_url_headers
    (api_key method endpoint : String) (data : Option Dict) (net : Net)
    (req : Request)
    (hreq : req ∈ (make_request api_key method endpoint data net).1) :
    req.url = "https://pay.wallet.tg/wpay/store-api/v1/" ++ endpoint
  ∧ req.headers = [("Wpay-Store-Api-Key", api_key),
                   ("Content-Type", "application/json"),
                   ("Accept", "application/json")] := by
  unfold make_request at hreq
  by_cases hp : method == "POST"
  · simp only [hp, if_true, List.mem_singleton] at hreq
    subst hreq
    exact ⟨rfl, rfl⟩
  · by_cases hg : method == "GET"
    · simp [hp, hg] at hreq
      subst hreq
      exact ⟨rfl, rfl⟩
    · simp [hp, hg] at hreq

/-- Witness for C8 at a concrete GET request. -/
theorem make_request_url_headers_witness :
    (Request.mk "GET" (BASE_URL ++ "reconciliation/order-amount")
        (request_headers "key") none).url
      = "https://pay.wallet.tg/wpay/store-api/v1/" ++ "reconciliation/order-amount"
  ∧ (Request.mk "GET" (BASE_URL ++ "reconciliation/order-amount")
        (request_headers "key") none).headers
      = [("Wpay-Store-Api-Key", "key"),
         ("Content-Type", "application/json"),
         ("Accept", "application/json")] :=
  make_request_url_headers "key" "GET" "reconciliation/order-amount" none
    (constNet 200 [])
    ⟨"GET", BASE_URL ++ "reconciliation/order-amount", request_headers "key", none⟩
    (by simp [make_request])

/-- C3: on a SUCCESS envelope, get_order_amount reads the value at
data.totalAmount, coerces it with Python int, and returns that integer; in
particular (witness) a numeric string "42" comes back as the integer 42. -/
theorem get_order_amount_success_coerces
    (api_key : String) (b fs : Dict) (v : JSON) (n : Int)
    (hs : lookupField b "status" = some (JSON.str "SUCCESS"))
    (hd : lookupField b "data" = some (JSON.obj fs))
    (ht : lookupField fs "totalAmount" = some v)
    (hi : pyInt (some v) = .ok n) :
    (get_order_amount api_key (constNet 200 b)).2 = .ok n := by
  simp [get_order_amount, make_request, constNet, isSuccess_eq_true hs,
    getD, hd, pyGet, ht, hi, Except.bind]

/-- Witness for C3: totalAmount the numeric string "42" yields 42. -/
theorem get_order_amount_success_coerces_witness :
    (get_order_amount "key" (constNet 200
        [("status", .str "SUCCESS"),
         ("data", .obj [("totalAmount", .str "42")])])).2 = .ok 42 :=
  get_order_amount_success_coerces "key"
    [("status", .str "SUCCESS"), ("data", .obj [("totalAmount", .str "42")])]
    [("totalAmount", .str "42")] (.str "42") 42 rfl rfl rfl rfl

/-- C4: each optional create_order argument (returnUrl, failReturnUrl,
customData) appears in the outgoing body exactly when the caller supplied
a truthy value, in which case the supplied value is included verbatim;
otherwise the key is absent from the body entirely. -/
theorem create_order_optional_fields_iff_truthy
    (amount : Rat) (cc de ei : String) (ts : Int) (cu : String)
    (ru fr : Option String) (cd : Option Dict) :
    lookupField (create_order_body amount cc de ei ts cu ru fr cd) "returnUrl"
      = (match ru with
         | some s => if s.isEmpty then none else some (JSON.str s)
         | none => none)
  ∧ lookupField (create_order_body amount cc de ei ts cu ru fr cd) "failReturnUrl"
      = (match fr with
         | some s => if s.isEmpty then none else some (JSON.str s)
         | none => none)
  ∧ lookupField (create_order_body amount cc de ei ts cu ru fr cd) "customData"
      = (match cd with
         | some d => if d.isEmpty then none else some (JSON.obj d)
         | none => none) := by
  rcases ru with _ | rs <;> rcases fr with _ | rf <;> rcases cd with _ | rc <;>
    simp [create_order_body, truthyStr, truthyDict, lookupField] <;>
    split_ifs <;> simp_all [lookupField]

/-- C5: on a SUCCESS envelope get_order_list maps each element of
data.items, in order, to an OrderReconciliationItem; when the data key is
absent, or present as an object lacking items, it returns the empty list
rather than raising. -/
theorem get_order_list_success_mapping
    (api_key : String) (off cnt : Int) (b : Dict)
    (hs : lookupField b "status" = some (JSON.str "SUCCESS")) :
    (∀ fs xs, lookupField b "data" = some (JSON.obj fs) →
        lookupField fs "items" = some (JSON.arr xs) →
        (get_order_list api_key off cnt (constNet 200 b)).2
          = .ok (xs.map OrderReconciliationItem.mk))
  ∧ (lookupField b "data" = none →
        (get_order_list api_key off cnt (constNet 200 b)).2 = .ok [])
  ∧ (∀ fs, lookupField b "data" = some (JSON.obj fs) →
        lookupField fs "items" = none →
        (get_order_list api_key off cnt (constNet 200 b)).2 = .ok []) := by
  refine ⟨fun fs xs hd hi => ?_, fun hd => ?_, fun fs hd hi => ?_⟩
  · simp [get_order_list, make_request, constNet, isSuccess_eq_true hs,
      getD, hd, pyGetD, Except.bind, hi]
  · simp [get_order_list, make_request, constNet, isSuccess_eq_true hs,
      getD, hd, pyGetD, Except.bind, lookupField]
  · simp [get_order_list, make_request, constNet, isSuccess_eq_true hs,
      getD, hd, pyGetD, Except.bind, hi]

/-- Witness for C5: one-element items maps in order; a SUCCESS envelope
without data.items yields the empty list. -/
theorem get_order_list_success_mapping_witness :
    (get_order_list "key" 0 10 (constNet 200
        [("status", .str "SUCCESS"),
         ("data", .obj [("items", .arr [.str "o1", .str "o2"])])])).2
      = .ok [⟨.str "o1"⟩, ⟨.str "o2"⟩]
  ∧ (get_order_list "key" 0 10 (constNet 200 [("status", .str "SUCCESS")])).2
      = .ok [] :=
  ⟨(get_order_list_success_mapping "key" 0 10
      [("status", .str "SUCCESS"),
       ("data", .obj [("items", .arr [.str "o1", .str "o2"])])] rfl).1
      [("items", .arr [.str "o1", .str "o2"])] [.str "o1", .str "o2"] rfl rfl,
   (get_order_list_success_mapping "key" 0 10
      [("status", .str "SUCCESS")] rfl).2.1 rfl⟩

/-- C6: the create_order body holds the nested amount object plus the
scalar fields under the exact camelCase keys, each equal to the
corresponding argument; the request is a POST to the order endpoint
carrying that body; at the example arguments the body is exactly the
five-field object of the claim. -/
theorem create_order_body_fields
    (api_key : String) (amount : Rat) (cc de ei : String) (ts : Int)
    (cu : String) (ru fr : Option String) (cd : Option Dict) (net : Net) :
    lookupField (create_order_body amount cc de ei ts cu ru fr cd) "amount"
      = some (.obj [("currencyCode", .str cc), ("amount", .num amount)])
  ∧ lookupField (create_order_body amount cc de ei ts cu ru fr cd) "description"
      = some (.str de)
  ∧ lookupField (create_order_body amount cc de ei ts cu ru fr cd) "externalId"
      = some (.str ei)
  ∧ lookupField (create_order_body amount cc de ei ts cu ru fr cd) "timeoutSeconds"
      = some (.num (ts : Rat))
  ∧ lookupField (create_order_body amount cc de ei ts cu ru fr cd) "customerTelegramUserId"
      = some (.str cu)
  ∧ (create_order api_key amount cc de ei ts cu ru fr cd net).1
      = [⟨"POST", BASE_URL ++ "order", request_headers api_key,
          some (create_order_body amount cc de ei ts cu ru fr cd)⟩]
  ∧ create_order_body 10 "USD" "desc" "ext-1" 600 "12345" none none none
      = [("amount", .obj [("currencyCode", .str "USD"), ("amount", .num 10)]),
         ("description", .str "desc"),
         ("externalId", .str "ext-1"),
         ("timeoutSeconds", .num 600),
         ("customerTelegramUserId", .str "12345")] := by
  refine ⟨?_, ?_, ?_, ?_, ?_, rfl, rfl⟩ <;>
    (simp only [create_order_body]; split_ifs <;> rfl)

/-- C9: a SUCCESS envelope in which data.totalAmount is absent (the data
key missing, or an object lacking totalAmount) makes get_order_amount
apply the integer coercion to a missing value: it fails with a Python
TypeError, which is not part of the WalletPay failure hierarchy, so the
payload-carrying error branch is not taken. -/
theorem get_order_amount_missing_total_type_error
    (api_key : String) (b : Dict)
    (hs : lookupField b "status" = some (JSON.str "SUCCESS"))
    (hd : lookupField b "data" = none
        ∨ ∃ fs, lookupField b "data" = some (JSON.obj fs)
            ∧ lookupField fs "totalAmount" = none) :
    (get_order_amount api_key (constNet 200 b)).2
      = .error (.TypeError
          "int argument must be a string, a bytes-like object or a real number, not NoneType")
  ∧ PyErr.isWalletPayFailure (.TypeError
        "int argument must be a string, a bytes-like object or a real number, not NoneType")
      = false := by
  refine ⟨?_, rfl⟩
  rcases hd with hd | ⟨fs, hd, ht⟩
  · simp [get_order_amount, make_request, constNet, isSuccess_eq_true hs,
      getD, hd, pyGet, Except.bind, pyInt, lookupField]
  · simp [get_order_amount, make_request, constNet, isSuccess_eq_true hs,
      getD, hd, pyGet, Except.bind, pyInt, ht]

/-- Witness for C9 at a SUCCESS envelope with no data key. -/
theorem get_order_amount_missing_total_type_error_witness :
    (get_order_amount "key" (constNet 200 [("status", .str "SUCCESS")])).2
      = .error (.TypeError
          "int argument must be a string, a bytes-like object or a real number, not NoneType") :=
  (get_order_amount_missing_total_type_error "key" [("status", .str "SUCCESS")]
    rfl (Or.inl rfl)).1

end WalletPay
